import Mathlib

/-!
# Verification of `studiolibrarymaya/animitem.py` (AnimItem core)

A shallow embedding of the `AnimItem` bundle-transfer core:

* `AnimItem.load` — option normalization, source time-window resolution and
  forwarding of the fully-resolved request to the external replay engine
  (`TransferObject.load`).
* `AnimItem.save` — staged save: path extension normalization, capture of a
  transfer object from the scene objects, metadata attachment, serialization
  into a staging directory, assembly of the final contents list, and delegation
  to the base item's commit primitive (`BaseItem.save`).
* `AnimItem.loadOptions` — the declarative option-descriptor schema.

External collaborators (`TransferObject`, `BaseItem`, the temp-directory
helper) are modelled as parameters: fallible steps are `Except`-valued fields
of an `Engine` record; the call finally forwarded to the collaborator is the
value returned on success (a `LoadCall` / `CommitCall` record), so "the
collaborator is never invoked" is "the embedded function returns `.error`".

Python exceptions are modelled with `Except PyErr`; Python truthiness of the
values that occur here (`None`, strings, lists, ints) is modelled explicitly
at each use site.
-/

/-- Python exception values that can flow through this layer: the
`AttributeError` raised by `None.lower()`, the `ValueError` raised by a
failed sequence unpack, and any exception raised by an external
collaborator. -/
inductive PyErr where
  | attributeError (msg : String) : PyErr
  | valueError (msg : String) : PyErr
  | externalError (msg : String) : PyErr
deriving DecidableEq, Repr

deriving instance DecidableEq for Except

/-- Python `str.lower()` restricted to ASCII, which covers every option
identifier this module compares (`"replace all"` and the enum items). -/
def pyLower (s : String) : String :=
  String.mk (s.data.map Char.toLower)

/-- Python `str.endswith(suffix)`: suffix test on the character sequence. -/
def pyEndswith (s suffix : String) : Bool :=
  List.isSuffixOf suffix.data s.data

/-- Python `objects or []`: `None` and the empty list are falsy and give
`[]`; any non-empty list is returned itself. -/
def pyOrEmptyList (xs : Option (List String)) : List String :=
  match xs with
  | none => []
  | some l => if l = [] then [] else l

/-- Python `x or 0` on an int: `0` is falsy. -/
def pyIntOr (x d : Int) : Int :=
  if x = 0 then d else x

/-- The state of an `AnimItem` bundle that `load`/`loadOptions` read: the
recorded frame range reported by the stored transfer object
(`self.transferObject().startFrame()` / `.endFrame()`). -/
structure Bundle where
  startFrame : Int
  endFrame : Int
deriving DecidableEq, Repr

/-- The fully-resolved request forwarded to `TransferObject.load` — the only
form in which a load ever reaches the replay engine
(`animitem.py` lines 235-243). -/
structure LoadCall where
  objects : List String
  namespaces : Option (List String)
  currentTime : Bool
  connect : Option Bool
  option : String
  startFrame : Option Int
  sourceTime : Int × Int
deriving DecidableEq, Repr

/-- The option-normalization step of `AnimItem.load`
(`if option.lower() == "replace all": option = "replaceCompletely"`,
lines 221-222).  Note only the *comparison* is lower-cased; any value other
than a case-variant of `"replace all"` is forwarded with its original
spelling. -/
def normalizeOption (option : String) : String :=
  if pyLower option = "replace all" then "replaceCompletely" else option

/-- The truthiness test `if source and source != [0, 0]` (line 224):
`None` and `[]` are falsy; the sentinel `[0, 0]` is excluded explicitly. -/
def sourceIsExplicit (source : Option (List Int)) : Bool :=
  match source with
  | none => false
  | some l => l ≠ [] && l ≠ [0, 0]

/-- The unpack `sourceStart, sourceEnd = source` (line 225): a Python
2-unpack raises `ValueError` unless the list has exactly two elements. -/
def unpackPair (l : List Int) : Except PyErr (Int × Int) :=
  match l with
  | [s, e] => .ok (s, e)
  | _ => .error (.valueError "unpack")

/-- `AnimItem.load` (lines 196-245), returning the `LoadCall` handed to
`TransferObject.load` on success, or the exception raised before the engine
is reached.  Mirrors the source order: `objects = objects or []`, option
normalization (raising `AttributeError` when `option is None`), source-window
resolution with the `[0, 0]` sentinel, then the fallbacks
`sourceStart = self.startFrame()` / `sourceEnd = self.endFrame()`. -/
def AnimItem.load (item : Bundle) (objects : Option (List String))
    (namespaces : Option (List String)) (startFrame : Option Int)
    (source : Option (List Int)) (option : Option String)
    (connect : Option Bool) (currentTime : Bool) :
    Except PyErr LoadCall :=
  let objects := pyOrEmptyList objects
  match option with
  | none => Except.error (PyErr.attributeError "NoneType has no attribute lower")
  | some o =>
    let option := normalizeOption o
    let resolved : Except PyErr (Option Int × Option Int) :=
      if sourceIsExplicit source then
        match unpackPair (source.getD []) with
        | .error e => .error e
        | .ok (s, e) => .ok (some s, some e)
      else
        .ok (none, none)
    match resolved with
    | .error e => .error e
    | .ok (sourceStart, sourceEnd) =>
      let sourceStart := sourceStart.getD item.startFrame
      let sourceEnd := sourceEnd.getD item.endFrame
      Except.ok {
        objects := objects
        namespaces := namespaces
        currentTime := currentTime
        connect := connect
        option := option
        startFrame := startFrame
        sourceTime := (sourceStart, sourceEnd)
      }

example :
    AnimItem.load ⟨0, 200⟩ (some ["pCube1"]) none none none
      (some "replace all") none false =
    Except.ok ⟨["pCube1"], none, false, none, "replaceCompletely", none, (0, 200)⟩ := by
  decide

example :
    AnimItem.load ⟨0, 200⟩ (some ["pCube1"]) none none (some [50, 100])
      (some "merge") (some true) false =
    Except.ok ⟨["pCube1"], none, false, some true, "merge", none, (50, 100)⟩ := by
  decide

/-- The path-extension normalization at the head of `AnimItem.save`
(`if path and not path.endswith(".anim"): path += ".anim"`, lines 272-273):
the empty path is falsy and left untouched; a non-empty path gets the
extension appended unless it already ends with it. -/
def normSavePath (path : String) : String :=
  if path = "" then path
  else if pyEndswith path ".anim" then path
  else path ++ ".anim"

/-- Metadata attached to a transfer object before serialization (opaque to
this layer: `anim.updateMetadata(metadata)` hands it to the engine). -/
abbrev Metadata := List (String × String)

/-- The state of an in-memory transfer object that this layer observes:
`paths()`, the list of files the serialization step reports having written. -/
structure Anim where
  paths : List String
deriving DecidableEq, Repr

/-- The external collaborators of `AnimItem.save`, each fallible step
modelled as an `Except`-valued function: `mutils.TempDir("Transfer",
clean=True).path()`, `transferClass().fromObjects(objects)`,
`anim.updateMetadata(metadata)` (mutation modelled as returning the updated
object) and `anim.save(tempPath, fileType=..., time=..., bakeConnected=...)`
(after which `anim.paths()` reports the written files). -/
structure Engine where
  tempDir : Except PyErr String
  fromObjects : List String → Except PyErr Anim
  updateMetadata : Anim → Option Metadata → Except PyErr Anim
  save : Anim → String → String → List (Option Int) → Bool → Except PyErr Anim

/-- The invocation of the base item's commit primitive
(`super(AnimItem, self).save(path, contents=contents)`, line 297): the
permanent location and the complete contents list handed to the atomic
promote. -/
structure CommitCall where
  path : String
  contents : List String
deriving DecidableEq, Repr

/-- `AnimItem.save` (lines 247-297), returning the `CommitCall` handed to
`BaseItem.save` on success, or the exception raised by a failing step
(staging-directory acquisition, capture, metadata attachment or
serialization), in which case the commit primitive is never reached.
Mirrors the source order: extension normalization, `contents = contents or
list()`, temp-dir acquisition, capture, metadata, serialization, then
`contents.append(iconPath)` when `iconPath` is truthy and
`contents.extend(anim.paths())`. -/
def AnimItem.save (eng : Engine) (objects : List String) (path : String)
    (contents : Option (List String)) (iconPath : String) (fileType : String)
    (startFrame endFrame : Option Int) (bakeConnected : Bool)
    (metadata : Option Metadata) : Except PyErr CommitCall :=
  let path := normSavePath path
  let contents := pyOrEmptyList contents
  match eng.tempDir with
  | .error e => .error e
  | .ok tempDirPath =>
    let tempPath := tempDirPath ++ "/transfer.anim"
    match eng.fromObjects objects with
    | .error e => .error e
    | .ok anim =>
      match eng.updateMetadata anim metadata with
      | .error e => .error e
      | .ok anim =>
        match eng.save anim tempPath fileType [startFrame, endFrame] bakeConnected with
        | .error e => .error e
        | .ok anim =>
          let contents := if iconPath ≠ "" then contents ++ [iconPath] else contents
          let contents := contents ++ anim.paths
          Except.ok { path := path, contents := contents }

/-- One entry of the declarative option schema returned by
`AnimItem.loadOptions`: the keys `name`, `type`, `default` and the optional
keys `items` and `persistent` of each descriptor dict. -/
structure OptionDescriptor where
  name : String
  type : String
  default : Sum Bool (Sum (List Int) String)
  items : Option (List String) := none
  persistent : Option Bool := none
deriving DecidableEq, Repr

/-- `AnimItem.loadOptions` (lines 120-152): the four descriptors, with
`source`'s default recomputed from the current bundle's recorded range via
`self.startFrame() or 0` / `self.endFrame() or 0`. -/
def AnimItem.loadOptions (item : Bundle) : List OptionDescriptor :=
  let startFrame := pyIntOr item.startFrame 0
  let endFrame := pyIntOr item.endFrame 0
  [ { name := "connect", type := "bool", default := .inl false },
    { name := "currentTime", type := "bool", default := .inl true },
    { name := "source", type := "range",
      default := .inr (.inl [startFrame, endFrame]),
      persistent := some false },
    { name := "option", type := "enum", default := .inr (.inr "replace all"),
      items := some ["replace", "replace all", "insert", "merge"] } ]

/-! ## Concrete collaborators used to exercise the embeddings -/

/-- An engine on which every staging step succeeds: serialization reports
having written the single payload file at the staging path. -/
def okEngine : Engine where
  tempDir := .ok "/tmp/studiolibrary/Transfer"
  fromObjects := fun _ => .ok ⟨[]⟩
  updateMetadata := fun a _ => .ok a
  save := fun _ tempPath _ _ _ => .ok ⟨[tempPath]⟩

/-- An engine whose capture step (`fromObjects`) raises. -/
def captureFailEngine : Engine where
  tempDir := .ok "/tmp/studiolibrary/Transfer"
  fromObjects := fun _ => .error (.externalError "capture failed")
  updateMetadata := fun a _ => .ok a
  save := fun _ tempPath _ _ _ => .ok ⟨[tempPath]⟩

/-! ## General lemmas about the embedded primitives -/

theorem pyIntOr_zero_right (x : Int) : pyIntOr x 0 = x := by
  unfold pyIntOr
  split <;> simp_all

theorem pyEndswith_append_self (p s : String) : pyEndswith (p ++ s) s = true := by
  unfold pyEndswith
  rw [String.data_append]
  exact List.isSuffixOf_iff_suffix.mpr (List.suffix_append _ _)

theorem append_anim_ne_empty (p : String) : p ++ ".anim" ≠ "" := by
  intro h
  have hd := congrArg String.data h
  rw [String.data_append] at hd
  have : (".anim" : String).data = [] := (List.append_eq_nil.mp hd).2
  simp [String.data] at this

/-- Every successful `AnimItem.load` with a present option forwards the
normalized option, the (Python-truthiness-normalized) objects, and the other
arguments unchanged. -/
theorem load_ok_fields (item : Bundle) (objects namespaces : Option (List String))
    (startFrame : Option Int) (source : Option (List Int)) (o : String)
    (connect : Option Bool) (currentTime : Bool) (call : LoadCall)
    (h : AnimItem.load item objects namespaces startFrame source (some o)
      connect currentTime = Except.ok call) :
    call.objects = pyOrEmptyList objects ∧ call.namespaces = namespaces ∧
    call.currentTime = currentTime ∧ call.connect = connect ∧
    call.option = normalizeOption o ∧ call.startFrame = startFrame := by
  unfold AnimItem.load at h
  dsimp only at h
  split at h
  · exact absurd h (by simp)
  · cases h
    simp

/-- Every successful `AnimItem.save` commits at the extension-normalized
path. -/
theorem save_ok_path (eng : Engine) (objects : List String) (path : String)
    (contents : Option (List String)) (iconPath fileType : String)
    (startFrame endFrame : Option Int) (bakeConnected : Bool)
    (metadata : Option Metadata) (call : CommitCall)
    (h : AnimItem.save eng objects path contents iconPath fileType startFrame
      endFrame bakeConnected metadata = Except.ok call) :
    call.path = normSavePath path := by
  unfold AnimItem.save at h
  dsimp only at h
  split at h
  · exact absurd h (by simp)
  · split at h
    · exact absurd h (by simp)
    · split at h
      · exact absurd h (by simp)
      · split at h
        · exact absurd h (by simp)
        · cases h
          simp

/-! ## Claim theorems -/

/-- C2 counterexample: the claim (following the spec) says non-`"replace
all"` options are forwarded "case-insensitively lower-cased though not
otherwise altered", but the code lower-cases only the comparison: the
option `"Merge"` is forwarded with its original spelling, not as
`"merge"`. -/
theorem normalizeOption_merge_not_lowercased :
    normalizeOption "Merge" = "Merge" ∧ normalizeOption "Merge" ≠ "merge" := by
  decide

/-- C2 (amended): in every successful `AnimItem.load`, the option forwarded
to `TransferObject.load` is `normalizeOption` of the given option: a
case-insensitive match of `"replace all"` becomes `"replaceCompletely"`,
every other value is forwarded exactly unchanged (retaining its original
case — lower-casing is applied only to the comparison), and normalization
is idempotent. -/
theorem animItem_load_option_normalization (item : Bundle)
    (objects namespaces : Option (List String)) (startFrame : Option Int)
    (source : Option (List Int)) (o : String) (connect : Option Bool)
    (currentTime : Bool) (call : LoadCall)
    (h : AnimItem.load item objects namespaces startFrame source (some o)
      connect currentTime = Except.ok call) :
    call.option = normalizeOption o ∧
    (pyLower o = "replace all" → call.option = "replaceCompletely") ∧
    (pyLower o ≠ "replace all" → call.option = o) ∧
    normalizeOption (normalizeOption o) = normalizeOption o := by
  have hopt := (load_ok_fields item objects namespaces startFrame source o
    connect currentTime call h).2.2.2.2.1
  refine ⟨hopt, fun hl => ?_, fun hl => ?_, ?_⟩
  · rw [hopt]
    unfold normalizeOption
    rw [if_pos hl]
  · rw [hopt]
    unfold normalizeOption
    rw [if_neg hl]
  · by_cases hl : pyLower o = "replace all"
    · have h1 : normalizeOption o = "replaceCompletely" := by
        unfold normalizeOption
        rw [if_pos hl]
      rw [h1]
      decide
    · have h1 : normalizeOption o = o := by
        unfold normalizeOption
        rw [if_neg hl]
      rw [h1]
      exact h1

/-- C2 witness: `load` with option `"Replace All"` forwards
`"replaceCompletely"`, and normalization is idempotent there. -/
theorem animItem_load_option_normalization_witness :
    (⟨[], none, false, none, "replaceCompletely", none, (0, 10)⟩ :
        LoadCall).option = normalizeOption "Replace All" ∧
    (pyLower "Replace All" = "replace all" →
      (⟨[], none, false, none, "replaceCompletely", none, (0, 10)⟩ :
        LoadCall).option = "replaceCompletely") ∧
    (pyLower "Replace All" ≠ "replace all" →
      (⟨[], none, false, none, "replaceCompletely", none, (0, 10)⟩ :
        LoadCall).option = "Replace All") ∧
    normalizeOption (normalizeOption "Replace All") =
      normalizeOption "Replace All" :=
  animItem_load_option_normalization ⟨0, 10⟩ none none none none
    "Replace All" none false _ (by decide)

/-- C3: when `source` is `None` or the sentinel `[0, 0]`, the `sourceTime`
forwarded to `TransferObject.load` is the bundle's own recorded range
`(startFrame, endFrame)`. -/
theorem animItem_load_default_source_window (item : Bundle)
    (objects namespaces : Option (List String)) (startFrame : Option Int)
    (source : Option (List Int)) (o : String) (connect : Option Bool)
    (currentTime : Bool)
    (h : source = none ∨ source = some [0, 0]) :
    AnimItem.load item objects namespaces startFrame source (some o) connect
      currentTime =
    Except.ok
      { objects := pyOrEmptyList objects, namespaces := namespaces,
        currentTime := currentTime, connect := connect,
        option := normalizeOption o, startFrame := startFrame,
        sourceTime := (item.startFrame, item.endFrame) } := by
  rcases h with h | h <;> subst h <;> rfl

/-- C3 witness: loading the `[0, 200]` bundle with no source uses the
bundle's own range. -/
theorem animItem_load_default_source_window_witness :
    AnimItem.load ⟨0, 200⟩ (some ["pCube1"]) none none none
      (some "replace all") none false =
    Except.ok
      { objects := pyOrEmptyList (some ["pCube1"]), namespaces := none,
        currentTime := false, connect := none,
        option := normalizeOption "replace all", startFrame := none,
        sourceTime := (0, 200) } :=
  animItem_load_default_source_window ⟨0, 200⟩ (some ["pCube1"]) none none
    none "replace all" none false (Or.inl rfl)

/-- C4: an explicit `source = [s, e]` different from the sentinel `(0, 0)`
is forwarded exactly as `sourceTime = (s, e)`, never blended with the
bundle's recorded range. -/
theorem animItem_load_explicit_source_window (item : Bundle)
    (objects namespaces : Option (List String)) (startFrame : Option Int)
    (s e : Int) (o : String) (connect : Option Bool) (currentTime : Bool)
    (h : ¬(s = 0 ∧ e = 0)) :
    AnimItem.load item objects namespaces startFrame (some [s, e]) (some o)
      connect currentTime =
    Except.ok
      { objects := pyOrEmptyList objects, namespaces := namespaces,
        currentTime := currentTime, connect := connect,
        option := normalizeOption o, startFrame := startFrame,
        sourceTime := (s, e) } := by
  have hex : sourceIsExplicit (some [s, e]) = true := by
    simp [sourceIsExplicit]
    tauto
  simp [AnimItem.load, hex, unpackPair]

/-- C4 witness: an explicit `[50, 100]` source is forwarded untouched even
though the bundle's recorded range is `[0, 200]`. -/
theorem animItem_load_explicit_source_window_witness :
    AnimItem.load ⟨0, 200⟩ (some ["pCube1"]) none none (some [50, 100])
      (some "merge") (some true) false =
    Except.ok
      { objects := pyOrEmptyList (some ["pCube1"]), namespaces := none,
        currentTime := false, connect := some true,
        option := normalizeOption "merge", startFrame := none,
        sourceTime := (50, 100) } :=
  animItem_load_explicit_source_window ⟨0, 200⟩ (some ["pCube1"]) none none
    50 100 "merge" (some true) false (by decide)

/-- C6: for a non-empty path, `save` appends the `.anim` extension exactly
when it is missing, so `save(path="foo")` and `save(path="foo.anim")`
normalize to the identical permanent location, and the normalization is
idempotent (the extension is never duplicated). -/
theorem animItem_save_path_extension_normalization (p : String) (hp : p ≠ "") :
    (pyEndswith p ".anim" = false →
      normSavePath p = p ++ ".anim" ∧
      normSavePath (p ++ ".anim") = p ++ ".anim") ∧
    (pyEndswith p ".anim" = true → normSavePath p = p) ∧
    normSavePath (normSavePath p) = normSavePath p := by
  have happ : normSavePath (p ++ ".anim") = p ++ ".anim" := by
    unfold normSavePath
    rw [if_neg (append_anim_ne_empty p),
      if_pos (pyEndswith_append_self p ".anim")]
  have hyes : pyEndswith p ".anim" = true → normSavePath p = p := by
    intro ht
    unfold normSavePath
    rw [if_neg hp, if_pos ht]
  have hno : pyEndswith p ".anim" = false → normSavePath p = p ++ ".anim" := by
    intro hf
    unfold normSavePath
    rw [if_neg hp, if_neg (by simp [hf])]
  refine ⟨fun hf => ⟨hno hf, happ⟩, hyes, ?_⟩
  cases hb : pyEndswith p ".anim" with
  | true => rw [hyes hb, hyes hb]
  | false => rw [hno hb]; exact happ

/-- C6 witness: `"foo"` and `"foo.anim"` both normalize to `"foo.anim"`. -/
theorem animItem_save_path_extension_normalization_witness :
    normSavePath "foo" = "foo" ++ ".anim" ∧
    normSavePath ("foo" ++ ".anim") = "foo" ++ ".anim" :=
  (animItem_save_path_extension_normalization "foo" (by decide)).1 (by decide)

/-- C7: calling `load` with `option=None` raises the `AttributeError` from
`None.lower()` at the normalization step, so `TransferObject.load` is never
invoked (the result is never an `Except.ok` load call). -/
theorem animItem_load_missing_option (item : Bundle)
    (objects namespaces : Option (List String)) (startFrame : Option Int)
    (source : Option (List Int)) (connect : Option Bool)
    (currentTime : Bool) :
    AnimItem.load item objects namespaces startFrame source none connect
      currentTime =
    Except.error (PyErr.attributeError "NoneType has no attribute lower") :=
  rfl

/-- C1: the staged save is all-or-nothing: with the staging directory
acquired, if capture (`fromObjects`), metadata attachment
(`updateMetadata`) or serialization (`TransferObject.save`) raises, then
`AnimItem.save` propagates that exact exception and the base item's commit
primitive is never invoked (no `CommitCall` is produced, so nothing appears
at the permanent path); conversely a commit happens only after capture,
metadata attachment and serialization have all succeeded. -/
theorem animItem_save_all_or_nothing (eng : Engine) (objects : List String)
    (path : String) (contents : Option (List String))
    (iconPath fileType : String) (startFrame endFrame : Option Int)
    (bakeConnected : Bool) (metadata : Option Metadata) (td : String)
    (e : PyErr) (htd : eng.tempDir = .ok td) :
    (eng.fromObjects objects = .error e →
      AnimItem.save eng objects path contents iconPath fileType startFrame
        endFrame bakeConnected metadata = .error e) ∧
    (∀ a, eng.fromObjects objects = .ok a →
      eng.updateMetadata a metadata = .error e →
      AnimItem.save eng objects path contents iconPath fileType startFrame
        endFrame bakeConnected metadata = .error e) ∧
    (∀ a a', eng.fromObjects objects = .ok a →
      eng.updateMetadata a metadata = .ok a' →
      eng.save a' (td ++ "/transfer.anim") fileType [startFrame, endFrame]
        bakeConnected = .error e →
      AnimItem.save eng objects path contents iconPath fileType startFrame
        endFrame bakeConnected metadata = .error e) ∧
    (∀ call, AnimItem.save eng objects path contents iconPath fileType
        startFrame endFrame bakeConnected metadata = .ok call →
      ∃ a a' a'', eng.fromObjects objects = .ok a ∧
        eng.updateMetadata a metadata = .ok a' ∧
        eng.save a' (td ++ "/transfer.anim") fileType [startFrame, endFrame]
          bakeConnected = .ok a'') := by
  refine ⟨?_, ?_, ?_, ?_⟩
  · intro h1
    simp only [AnimItem.save, htd, h1]
  · intro a h1 h2
    simp only [AnimItem.save, htd, h1, h2]
  · intro a a' h1 h2 h3
    simp only [AnimItem.save, htd, h1, h2, h3]
  · intro call h
    simp only [AnimItem.save, htd] at h
    cases hfo : eng.fromObjects objects with
    | error e' =>
      simp only [hfo] at h
      exact absurd h (by simp)
    | ok a =>
      simp only [hfo] at h
      cases hum : eng.updateMetadata a metadata with
      | error e' =>
        simp only [hum] at h
        exact absurd h (by simp)
      | ok a' =>
        simp only [hum] at h
        cases hsv : eng.save a' (td ++ "/transfer.anim") fileType
            [startFrame, endFrame] bakeConnected with
        | error e' =>
          simp only [hsv] at h
          exact absurd h (by simp)
        | ok a'' => exact ⟨a, a', a'', rfl, hum, hsv⟩

/-- C1 witness: when the capture step raises, the exception propagates
unchanged and no commit call is produced. -/
theorem animItem_save_all_or_nothing_witness :
    AnimItem.save captureFailEngine ["pCube1"] "foo" none "" "" none none
      false none = .error (PyErr.externalError "capture failed") :=
  (animItem_save_all_or_nothing captureFailEngine ["pCube1"] "foo" none ""
    "" none none false none "/tmp/studiolibrary/Transfer"
    (PyErr.externalError "capture failed") rfl).1 rfl

/-- C5: on a fully successful save, the contents list handed to the base
item's commit primitive is the caller's explicit extras, then the icon path
exactly when it is non-empty, then every file the serialization step
reported writing (`TransferObject.paths()`), at the extension-normalized
permanent path. -/
theorem animItem_save_contents_composition (eng : Engine)
    (objects : List String) (path : String) (contents : Option (List String))
    (iconPath fileType : String) (startFrame endFrame : Option Int)
    (bakeConnected : Bool) (metadata : Option Metadata) (td : String)
    (a a' a'' : Anim)
    (htd : eng.tempDir = .ok td)
    (h1 : eng.fromObjects objects = .ok a)
    (h2 : eng.updateMetadata a metadata = .ok a')
    (h3 : eng.save a' (td ++ "/transfer.anim") fileType [startFrame, endFrame]
      bakeConnected = .ok a'') :
    AnimItem.save eng objects path contents iconPath fileType startFrame
      endFrame bakeConnected metadata =
    Except.ok
      { path := normSavePath path,
        contents := pyOrEmptyList contents
          ++ (if iconPath = "" then [] else [iconPath])
          ++ a''.paths } := by
  simp only [AnimItem.save, htd, h1, h2, h3]
  by_cases hic : iconPath = ""
  · simp [hic]
  · simp [hic]

/-- C5 witness: a save with an explicit extra, a non-empty icon and a
payload file commits exactly `extras ++ [icon] ++ payload` at
`"foo.anim"`. -/
theorem animItem_save_contents_composition_witness :
    AnimItem.save okEngine ["pCube1"] "foo" (some ["extra"]) "icon.png" ""
      none none false none =
    Except.ok
      { path := "foo.anim",
        contents := ["extra", "icon.png",
          "/tmp/studiolibrary/Transfer/transfer.anim"] } := by
  rw [animItem_save_contents_composition okEngine ["pCube1"] "foo"
    (some ["extra"]) "icon.png" "" none none false none
    "/tmp/studiolibrary/Transfer" ⟨[]⟩ ⟨[]⟩
    ⟨["/tmp/studiolibrary/Transfer/transfer.anim"]⟩
    (by decide) (by decide) (by decide) (by decide)]
  decide

/-- C8: `loadOptions` is pure metadata: for every bundle it returns exactly
the four descriptors — `connect` (bool, default false), `currentTime`
(bool, default true), `source` (range, non-persistent, default the current
bundle's recorded range) and `option` (enum, default `"replace all"`, items
replace / replace all / insert / merge). -/
theorem animItem_loadOptions_schema (item : Bundle) :
    AnimItem.loadOptions item =
    [ { name := "connect", type := "bool", default := .inl false },
      { name := "currentTime", type := "bool", default := .inl true },
      { name := "source", type := "range",
        default := .inr (.inl [item.startFrame, item.endFrame]),
        persistent := some false },
      { name := "option", type := "enum",
        default := .inr (.inr "replace all"),
        items := some ["replace", "replace all", "insert", "merge"] } ] := by
  simp only [AnimItem.loadOptions, pyIntOr_zero_right]

/-- C9: a `None` objects argument is normalized to the empty list before
being forwarded to `TransferObject.load`, while the namespaces argument is
forwarded unchanged (here: `None` stays `None`). -/
theorem animItem_load_objects_none_normalized (item : Bundle)
    (namespaces : Option (List String)) (startFrame : Option Int)
    (source : Option (List Int)) (o : String) (connect : Option Bool)
    (currentTime : Bool) (call : LoadCall)
    (h : AnimItem.load item none namespaces startFrame source (some o)
      connect currentTime = Except.ok call) :
    call.objects = [] ∧ call.namespaces = namespaces := by
  have hf := load_ok_fields item none namespaces startFrame source o connect
    currentTime call h
  exact ⟨by rw [hf.1]; rfl, hf.2.1⟩

/-- C9 witness: a concrete load with `objects=None`, `namespaces=None`
forwards `[]` and `None`. -/
theorem animItem_load_objects_none_normalized_witness :
    (⟨[], none, false, none, "merge", none, (0, 10)⟩ : LoadCall).objects = []
    ∧ (⟨[], none, false, none, "merge", none, (0, 10)⟩ :
        LoadCall).namespaces = none :=
  animItem_load_objects_none_normalized ⟨0, 10⟩ none none none "merge" none
    false _ (by decide)

/-- C10: the `.anim` extension is appended only for a non-empty path; a
save called with the default empty path hands the empty path to the commit
primitive unchanged. -/
theorem animItem_save_empty_path_unchanged (eng : Engine)
    (objects : List String) (contents : Option (List String))
    (iconPath fileType : String) (startFrame endFrame : Option Int)
    (bakeConnected : Bool) (metadata : Option Metadata) (call : CommitCall)
    (h : AnimItem.save eng objects "" contents iconPath fileType startFrame
      endFrame bakeConnected metadata = Except.ok call) :
    call.path = "" := by
  have hp := save_ok_path eng objects "" contents iconPath fileType
    startFrame endFrame bakeConnected metadata call h
  exact hp.trans rfl

/-- C10 witness: a concrete successful save with the default empty path
commits at the empty path. -/
theorem animItem_save_empty_path_unchanged_witness :
    (⟨"", ["/tmp/studiolibrary/Transfer/transfer.anim"]⟩ : CommitCall).path
      = "" :=
  animItem_save_empty_path_unchanged okEngine ["pCube1"] none "" "" none
    none false none _ (by decide)
